import Mathlib

/-!
Verification of the Sumsub compliance integration layer.

This file gives a shallow embedding, in Lean, of the core of the
OkayJosh/compliance repository — the request-signing routine
(`infrastructure/sumsub_api.py`, `SumsubAPIAdapter._get_headers`), the
provider client's request construction and response interpretation
(`SumsubAPIAdapter.create_applicant` / `add_document` /
`get_verification_status`), the repository over the Django model
(`infrastructure/repositories.py`, `sumsub/models.py`) and the workflow
service (`domain/services.py`, `SumsubApplicant`) — and proves or refutes
the specification's claims about them.

Conventions:
* byte strings are `List Nat` with every element below 256;
* Python `str` is Lean `String`, with UTF-8 encoding made explicit;
* the database is a `List ApplicantRow` holding the rows in insertion
  order; Django ORM calls (`get_or_create`, `filter(...).update(...)`,
  `Model.save`) are modelled by their documented semantics;
* outbound HTTP is modelled by the pure request data the adapter builds
  plus an explicit `ProviderResponse` argument standing for whatever the
  provider answered; `requests.Response.raise_for_status` is modelled by
  its actual semantics (raise exactly when `400 ≤ status < 600`).
-/

/-! ## Bytes, UTF-8 and hex -/

/-- UTF-8 encoding of a single character (1–4 bytes). -/
def utf8Char (c : Char) : List Nat :=
  let n := c.toNat
  if n < 128 then [n]
  else if n < 2048 then
    [192 ||| (n >>> 6), 128 ||| (n &&& 63)]
  else if n < 65536 then
    [224 ||| (n >>> 12), 128 ||| ((n >>> 6) &&& 63), 128 ||| (n &&& 63)]
  else
    [240 ||| (n >>> 18), 128 ||| ((n >>> 12) &&& 63),
     128 ||| ((n >>> 6) &&& 63), 128 ||| (n &&& 63)]

/-- UTF-8 encoding of a string, the model of Python's `s.encode('utf-8')`. -/
def utf8 (s : String) : List Nat := s.toList.flatMap utf8Char

/-- Lower-case hexadecimal digit for `n % 16`. -/
def hexDigitChar (n : Nat) : Char :=
  "0123456789abcdef".toList.getD (n % 16) 'a'

/-- Two lower-case hex digits of one byte. -/
def hexByte (b : Nat) : List Char := [hexDigitChar (b / 16), hexDigitChar b]

/-- Lower-case hex encoding of a byte string, the model of Python's
`bytes.hex()` / `hashlib` `hexdigest()` (which is lower-case). -/
def hexEncode (bs : List Nat) : String := ⟨bs.flatMap hexByte⟩

/-- Characters allowed in a lower-case hex string. -/
def isLowerHexChar (c : Char) : Bool := c ∈ "0123456789abcdef".toList

/-! ## SHA-256 (FIPS 180-4), over byte lists, words as `Nat` mod 2^32 -/

/-- Truncation to a 32-bit word. -/
def w32 (n : Nat) : Nat := n % 4294967296

/-- Right rotation of a 32-bit word by `k`. -/
def rotr32 (k n : Nat) : Nat := w32 ((n >>> k) ||| (n <<< (32 - k)))

/-- Choice function of SHA-256. -/
def sha2Ch (x y z : Nat) : Nat := (x &&& y) ^^^ ((4294967295 ^^^ x) &&& z)

/-- Majority function of SHA-256. -/
def sha2Maj (x y z : Nat) : Nat := (x &&& y) ^^^ (x &&& z) ^^^ (y &&& z)

/-- Big sigma-0. -/
def bigSigma0 (x : Nat) : Nat := rotr32 2 x ^^^ rotr32 13 x ^^^ rotr32 22 x

/-- Big sigma-1. -/
def bigSigma1 (x : Nat) : Nat := rotr32 6 x ^^^ rotr32 11 x ^^^ rotr32 25 x

/-- Small sigma-0. -/
def smallSigma0 (x : Nat) : Nat := rotr32 7 x ^^^ rotr32 18 x ^^^ (x >>> 3)

/-- Small sigma-1. -/
def smallSigma1 (x : Nat) : Nat := rotr32 17 x ^^^ rotr32 19 x ^^^ (x >>> 10)

/-- Round constants of SHA-256 (FIPS 180-4 §4.2.2), written in decimal. -/
def sha256K : List Nat :=
  [1116352408, 1899447441, 3049323471, 3921009573, 961987163,
   1508970993, 2453635748, 2870763221, 3624381080, 310598401,
   607225278, 1426881987, 1925078388, 2162078206, 2614888103,
   3248222580, 3835390401, 4022224774, 264347078, 604807628,
   770255983, 1249150122, 1555081692, 1996064986, 2554220882,
   2821834349, 2952996808, 3210313671, 3336571891, 3584528711,
   113926993, 338241895, 666307205, 773529912, 1294757372,
   1396182291, 1695183700, 1986661051, 2177026350, 2456956037,
   2730485921, 2820302411, 3259730800, 3345764771, 3516065817,
   3600352804, 4094571909, 275423344, 430227734, 506948616,
   659060556, 883997877, 958139571, 1322822218, 1537002063,
   1747873779, 1955562222, 2024104815, 2227730452, 2361852424,
   2428436474, 2756734187, 3204031479, 3329325298]

/-- Big-endian bytes (fixed width `k`) of a natural number. -/
def natToBytesBE : Nat → Nat → List Nat
  | 0, _ => []
  | Nat.succ k, n => natToBytesBE k (n / 256) ++ [n % 256]

/-- Big-endian 32-bit words from a byte list (length a multiple of 4). -/
def bytesToWordsBE : List Nat → List Nat
  | a :: b :: c :: d :: rest =>
      (a * 16777216 + b * 65536 + c * 256 + d) :: bytesToWordsBE rest
  | _ => []

/-- Extend a message schedule by `k` further words. -/
def extendSchedule : List Nat → Nat → List Nat
  | ws, 0 => ws
  | ws, Nat.succ k =>
      let i := ws.length
      let g := fun j => ws.getD (i - j) 0
      extendSchedule
        (ws ++ [w32 (smallSigma1 (g 2) + g 7 + smallSigma0 (g 15) + g 16)]) k

/-- Working state of the SHA-256 compression function. -/
structure Sha2State where
  a : Nat
  b : Nat
  c : Nat
  d : Nat
  e : Nat
  f : Nat
  g : Nat
  h : Nat
deriving Repr, DecidableEq

/-- One round of the SHA-256 compression function. -/
def sha256Round (st : Sha2State) (kw : Nat × Nat) : Sha2State :=
  let t1 := w32 (st.h + bigSigma1 st.e + sha2Ch st.e st.f st.g + kw.1 + kw.2)
  let t2 := w32 (bigSigma0 st.a + sha2Maj st.a st.b st.c)
  ⟨w32 (t1 + t2), st.a, st.b, st.c, w32 (st.d + t1), st.e, st.f, st.g⟩

/-- Wordwise addition (mod 2^32) of two states. -/
def addState (x y : Sha2State) : Sha2State :=
  ⟨w32 (x.a + y.a), w32 (x.b + y.b), w32 (x.c + y.c), w32 (x.d + y.d),
   w32 (x.e + y.e), w32 (x.f + y.f), w32 (x.g + y.g), w32 (x.h + y.h)⟩

/-- Compression of one 64-byte block. -/
def sha256Block (st : Sha2State) (block : List Nat) : Sha2State :=
  let ws := extendSchedule (bytesToWordsBE block) 48
  addState st ((sha256K.zip ws).foldl sha256Round st)

/-- Split a byte list into 64-byte chunks. -/
def chunks64 (bs : List Nat) : List (List Nat) :=
  if h : bs = [] then [] else bs.take 64 :: chunks64 (bs.drop 64)
termination_by bs.length
decreasing_by
  simp only [List.length_drop]
  have : bs.length ≠ 0 := fun hn => h (List.length_eq_zero.mp hn)
  omega

/-- Initial hash value of SHA-256 (FIPS 180-4 §5.3.3), in decimal. -/
def sha256Init : Sha2State :=
  ⟨1779033703, 3144134277, 1013904242, 2773480762,
   1359893119, 2600822924, 528734635, 1541459225⟩

/-- SHA-256 padding: `0x80`, zeros to 56 mod 64, then the 64-bit bit length. -/
def sha256Pad (msg : List Nat) : List Nat :=
  msg ++ [128] ++ List.replicate ((119 - msg.length % 64) % 64) 0
      ++ natToBytesBE 8 (msg.length * 8)

/-- SHA-256 digest (32 bytes) of a byte list. -/
def sha256 (msg : List Nat) : List Nat :=
  let fin := (chunks64 (sha256Pad msg)).foldl sha256Block sha256Init
  [fin.a, fin.b, fin.c, fin.d, fin.e, fin.f, fin.g, fin.h].flatMap (natToBytesBE 4)

/-- HMAC-SHA-256 (RFC 2104) of `msg` under `key`; the model of Python's
`hmac.new(key, msg, digestmod=hashlib.sha256).digest()`. -/
def hmacSha256 (key msg : List Nat) : List Nat :=
  let k0 := if key.length > 64 then sha256 key else key
  let k0pad := k0 ++ List.replicate (64 - k0.length) 0
  let ipad := k0pad.map (fun b => b ^^^ 54)
  let opad := k0pad.map (fun b => b ^^^ 92)
  sha256 (opad ++ sha256 (ipad ++ msg))

/-! ## Request signing (`SumsubAPIAdapter._get_headers`) -/

/-- Body of a prepared `requests` request: absent, a `str`, or raw bytes.
`requests` produces a `str` body for form data and `bytes` for pre-encoded
payloads; `_get_headers` handles all three cases. -/
inductive RequestBody where
  | empty
  | ofStr (s : String)
  | ofBytes (bs : List Nat)
deriving Repr, DecidableEq

/-- Raw bytes of a request body as they appear on the wire: a `str` body is
its UTF-8 encoding, a missing body is the empty byte string. This mirrors
the two normalisation lines of `_get_headers`
(`body = b'' if prepared_request.body is None else prepared_request.body`
and `if isinstance(body, str): body = body.encode('utf-8')`). -/
def RequestBody.toBytes : RequestBody → List Nat
  | RequestBody.empty => []
  | RequestBody.ofStr s => utf8 s
  | RequestBody.ofBytes bs => bs

/-- Headers attached by `_get_headers`. -/
structure SignedHeaders where
  xAppToken : String
  xAppAccessTs : String
  xAppAccessSig : String
deriving Repr, DecidableEq

namespace SumsubAPIAdapter

/-- Embedding of `SumsubAPIAdapter._get_headers`
(`src/infrastructure/sumsub_api.py`, lines 95–114). Line by line:
`now = int(time.time())` is the `now` argument; `method = request.method.upper()`;
`path_url = prepared_request.path_url`; the body normalisation is
`RequestBody.toBytes`; `data_to_sign = str(now).encode('utf-8') +
method.encode('utf-8') + path_url.encode('utf-8') + body`; the signature is
`hmac.new(self.secret_key.encode('utf-8'), data_to_sign,
digestmod=hashlib.sha256).hexdigest()` (lower-case hex); the three headers
are set from `api_token`, `str(now)` and the signature. -/
def get_headers (secret_key api_token : String) (now : Nat)
    (method path_url : String) (body : RequestBody) : SignedHeaders :=
  let bodyBytes := body.toBytes
  let data_to_sign :=
    utf8 (toString now) ++ utf8 method.toUpper ++ utf8 path_url ++ bodyBytes
  let signature := hexEncode (hmacSha256 (utf8 secret_key) data_to_sign)
  ⟨api_token, toString now, signature⟩

end SumsubAPIAdapter

/-- Canonical payload as the specification words it: the byte concatenation
of the decimal string of the unix timestamp (seconds), the uppercase HTTP
method, the request path including query string, and the raw request body,
with no separators. -/
def specCanonicalPayload (ts : Nat) (method path : String)
    (rawBody : List Nat) : List Nat :=
  utf8 (toString ts) ++ utf8 method.toUpper ++ utf8 path ++ rawBody

/-- Membership in the 16-character lower-hex alphabet holds for every
`getD` lookup below index 16. -/
theorem lowerHex_getD (m : Nat) (hm : m < 16) :
    isLowerHexChar ("0123456789abcdef".toList.getD m 'a') = true := by
  revert hm; revert m; decide

/-- Every character `hexDigitChar` produces is lower-case hex. -/
theorem hexDigitChar_lowerHex (n : Nat) : isLowerHexChar (hexDigitChar n) = true :=
  lowerHex_getD (n % 16) (Nat.mod_lt n (by decide))

/-- Every character of a `hexEncode` output is lower-case hex. -/
theorem hexEncode_lowerHex (bs : List Nat) :
    (hexEncode bs).toList.all isLowerHexChar = true := by
  show (bs.flatMap hexByte).all isLowerHexChar = true
  induction bs with
  | nil => rfl
  | cons b rest ih =>
      simp only [List.flatMap_cons, List.all_append, ih, Bool.and_true]
      show (hexByte b).all isLowerHexChar = true
      simp [hexByte, hexDigitChar_lowerHex]

/-! ## Domain model (`domain/models.py`, `domain/dto.py`) -/

/-- Embedding of the `domain.models.Applicant` dataclass. UUIDs are
modelled as `Nat`; optional fields keep their dataclass defaults. Field
order follows the dataclass. -/
structure Applicant where
  first_name : String
  last_name : String
  dob : String
  nationality : String
  email : String
  phone : String
  applicant_id : Option String := none
  uuid : Option Nat := none
  verification_status : Option String := none
deriving Repr, DecidableEq

/-- Content and content type of a Django `InMemoryUploadedFile`, the two
attributes the adapter reads (`document_file.read()`,
`document_file.content_type`). -/
structure UploadedFile where
  content : List Nat
  content_type : String
deriving Repr, DecidableEq

/-- Embedding of the `domain.models.Document` dataclass. -/
structure Document where
  doc_type : String
  doc_subtype : String
  document_file : UploadedFile
  applicant_id : String
deriving Repr, DecidableEq

/-- Embedding of `domain.dto.ApplicantDTO`. -/
structure ApplicantDTO where
  first_name : String
  last_name : String
  dob : String
  nationality : String
  email : String
  phone : String
deriving Repr, DecidableEq

/-- Document input as consumed by `SumsubApplicant.add_document`, which
reads `doc_type`, `doc_subtype`, `document_file` and `applicant_id` off the
object it is given (the view passes a `Document`, `domain.dto.DocumentDTO`
declares the same shape). -/
structure DocumentDTO where
  doc_type : String
  doc_subtype : String
  document_file : UploadedFile
  applicant_id : String
deriving Repr, DecidableEq

/-- Python `str(...)` on an optional UUID: `str(None)` is `"None"`,
otherwise the decimal rendering of the modelled UUID. -/
def pyStr : Option Nat → String
  | none => "None"
  | some n => toString n

/-! ## Provider client (`infrastructure/sumsub_api.py`) -/

/-- JSON object sent as `fixedInfo` by `SumsubAPIAdapter.create_applicant`
(lines 139–148 of `sumsub_api.py`). -/
structure FixedInfo where
  firstName : String
  lastName : String
  countryOfBirth : String
  stateOfBirth : String
  country : String
  nationality : String
  gender : String
  dob : String
deriving Repr, DecidableEq

/-- Top-level JSON payload of the applicant-creation POST
(lines 139–155 of `sumsub_api.py`). -/
structure CreateApplicantPayload where
  fixedInfo : FixedInfo
  externalUserId : String
  email : String
  phone : String
  lang : String
  type : String
deriving Repr, DecidableEq

/-- JSON object serialised into the `metadata` multipart field by
`SumsubAPIAdapter.add_document` (lines 199–205 of `sumsub_api.py`). -/
structure DocumentMetadata where
  idDocSubType : String
  idDocType : String
  country : String
deriving Repr, DecidableEq

/-- Method, URL and timeout of one outbound HTTP exchange as the adapter
performs it (`requests.Request(...)` then `session.send(...,
timeout=self.TIMEOUT)`). -/
structure OutboundRequest where
  method : String
  url : String
  timeout : Nat
deriving Repr, DecidableEq

/-- Provider answer to one outbound exchange: HTTP status, the response
JSON object viewed as a flat string map, and the response headers. -/
structure ProviderResponse where
  status : Nat
  json : List (String × String)
  headers : List (String × String)
deriving Repr, DecidableEq

/-- Errors an adapter operation can raise while interpreting a response:
`requests.HTTPError` from `raise_for_status` (carrying the response's
status and body) or a missing key when indexing the response JSON. -/
inductive ClientError where
  | httpError (status : Nat) (json : List (String × String))
  | keyError (key : String)
deriving Repr, DecidableEq

namespace SumsubAPIAdapter

/-- Class constant `SumsubAPIAdapter.TIMEOUT` (`sumsub_api.py`, line 37),
passed verbatim as the `timeout=` argument of every `session.send`; the
`requests` library interprets that argument in seconds. -/
def TIMEOUT : Nat := 40000

/-- Embedding of `requests.Response.raise_for_status`: it raises
`HTTPError` exactly when `400 <= status_code < 600` and is a no-op for
every other status (1xx, 2xx and 3xx included). -/
def raise_for_status (r : ProviderResponse) : Except ClientError Unit :=
  if 400 ≤ r.status ∧ r.status < 600 then
    Except.error (ClientError.httpError r.status r.json)
  else Except.ok ()

/-- Payload built by `SumsubAPIAdapter.create_applicant`
(`sumsub_api.py`, lines 139–155), field for field: `countryOfBirth`,
`stateOfBirth`, `gender`, `lang` and `type` are string literals;
`country` and `nationality` both copy `applicant.nationality`;
`externalUserId` is `str(applicant.uuid)`; `dob` is the applicant's date
of birth rendered `YYYY-MM-DD` (`dob.strftime('%Y-%m-%d')`), which is the
form `dob` already has here. -/
def create_applicant_payload (applicant : Applicant) : CreateApplicantPayload :=
  { fixedInfo :=
      { firstName := applicant.first_name
        lastName := applicant.last_name
        countryOfBirth := "NGN"
        stateOfBirth := "Lagos"
        country := applicant.nationality
        nationality := applicant.nationality
        gender := "M"
        dob := applicant.dob }
    externalUserId := pyStr applicant.uuid
    email := applicant.email
    phone := applicant.phone
    lang := "en"
    type := "individual" }

/-- Outbound exchange performed by `SumsubAPIAdapter.create_applicant`:
a POST to `{base}/resources/applicants?levelName=basic-kyc-level` sent
with `timeout=self.TIMEOUT`. -/
def create_applicant_request (base_url : String) : OutboundRequest :=
  ⟨"POST", base_url ++ "/resources/applicants?levelName=basic-kyc-level", TIMEOUT⟩

/-- Response interpretation of `SumsubAPIAdapter.create_applicant`
(lines 167–168): `response.raise_for_status()` then
`response.json()['id']`. -/
def create_applicant_result (r : ProviderResponse) : Except ClientError String :=
  match raise_for_status r with
  | Except.error e => Except.error e
  | Except.ok _ =>
      match r.json.lookup "id" with
      | some i => Except.ok i
      | none => Except.error (ClientError.keyError "id")

/-- Metadata object built by `SumsubAPIAdapter.add_document`
(lines 199–205). -/
def add_document_metadata (document : Document) : DocumentMetadata :=
  { idDocSubType := document.doc_subtype
    idDocType := document.doc_type
    country := "NGA" }

/-- Outbound exchange performed by `SumsubAPIAdapter.add_document`: a POST
to `{base}/resources/applicants/{id}/info/idDoc` with `timeout=self.TIMEOUT`. -/
def add_document_request (base_url : String) (document : Document) : OutboundRequest :=
  ⟨"POST",
   base_url ++ "/resources/applicants/" ++ document.applicant_id ++ "/info/idDoc",
   TIMEOUT⟩

/-- Response interpretation of `SumsubAPIAdapter.add_document`
(lines 218–219): `raise_for_status()` then
`response.headers.get('X-Image-Id')` (absent header yields `None`, not an
error). -/
def add_document_result (r : ProviderResponse) : Except ClientError (Option String) :=
  match raise_for_status r with
  | Except.error e => Except.error e
  | Except.ok _ => Except.ok (r.headers.lookup "X-Image-Id")

/-- Outbound exchange performed by
`SumsubAPIAdapter.get_verification_status`: a GET to
`{base}/resources/applicants/{id}/status` with `timeout=self.TIMEOUT`. -/
def get_verification_status_request (base_url applicant_id : String) : OutboundRequest :=
  ⟨"GET", base_url ++ "/resources/applicants/" ++ applicant_id ++ "/status", TIMEOUT⟩

/-- Response interpretation of `SumsubAPIAdapter.get_verification_status`
(lines 249–250): `raise_for_status()` then
`response.json()['reviewStatus']`. -/
def get_verification_status_result (r : ProviderResponse) : Except ClientError String :=
  match raise_for_status r with
  | Except.error e => Except.error e
  | Except.ok _ =>
      match r.json.lookup "reviewStatus" with
      | some s => Except.ok s
      | none => Except.error (ClientError.keyError "reviewStatus")

end SumsubAPIAdapter

/-! ## Persistence (`sumsub/models.py`, `infrastructure/repositories.py`) -/

/-- Database row of `sumsub.models.ApplicantModel`, fields in declaration
order; `uuid` is the primary key, `applicant_id` and `verification_status`
are nullable. -/
structure ApplicantRow where
  uuid : Nat
  first_name : String
  last_name : String
  email : String
  dob : String
  nationality : String
  phone : String
  applicant_id : Option String
  verification_status : Option String
deriving Repr, DecidableEq

/-- Model of the `uuid` column default. `models.py` line 28 declares
`uuid = models.UUIDField(primary_key=True, default=uuid.uuid4())`: the
call `uuid.uuid4()` is evaluated once, when the class body is executed, so
the default is one fixed UUID value shared by every row that relies on it
(the generated migration freezes that same single literal). It is modelled
here as one fixed natural number. -/
def ApplicantModelDefaultUuid : Nat := 247916561106395924

/-- Failure of the underlying database engine; a primary-key collision on
`INSERT` raises Django's `IntegrityError`. -/
inductive DBError where
  | integrityError
deriving Repr, DecidableEq

/-- Natural-key filter used by `ApplicantRepository.save_applicant`:
`get_or_create` looks a row up by the six personal fields. -/
def natKeyMatches (r : ApplicantRow) (a : Applicant) : Bool :=
  r.first_name == a.first_name && r.last_name == a.last_name &&
  r.dob == a.dob && r.nationality == a.nationality &&
  r.email == a.email && r.phone == a.phone

/-- Natural key of an applicant, the six-field tuple `get_or_create`
filters on. -/
def naturalKey (a : Applicant) : String × String × String × String × String × String :=
  (a.first_name, a.last_name, a.dob, a.nationality, a.email, a.phone)

/-- Django `Model.save()` on an instance whose primary key is already
present updates that row in place; with a fresh primary key it inserts.
Used by `SumsubApplicant.create_applicant` via `self.applicant_db.save()`. -/
def modelSave (db : List ApplicantRow) (row : ApplicantRow) : List ApplicantRow :=
  if db.any (fun r => r.uuid == row.uuid) then
    db.map (fun r => if r.uuid == row.uuid then row else r)
  else db ++ [row]

namespace ApplicantRepository

/-- Embedding of `ApplicantRepository.save_applicant`
(`repositories.py`, lines 25–48):
`ApplicantModel.objects.get_or_create(first_name=..., last_name=...,
dob=..., nationality=..., email=..., phone=...)`. Per Django semantics,
`get_or_create` first filters on exactly the given keyword arguments and
returns `(row, False)` on a hit; otherwise it inserts a new row
(`QuerySet.create` forces an `INSERT`) whose remaining columns take their
model defaults — in particular `uuid` takes the single class-level default
— and returns `(row, True)`; the forced insert raises `IntegrityError`
when the primary key already exists. -/
def save_applicant (db : List ApplicantRow) (applicant : Applicant) :
    Except DBError (List ApplicantRow × ApplicantRow × Bool) :=
  match db.find? (fun r => natKeyMatches r applicant) with
  | some row => Except.ok (db, row, false)
  | none =>
      let row : ApplicantRow :=
        ⟨ApplicantModelDefaultUuid, applicant.first_name, applicant.last_name,
         applicant.email, applicant.dob, applicant.nationality, applicant.phone,
         none, none⟩
      if db.any (fun r => r.uuid == ApplicantModelDefaultUuid) then
        Except.error DBError.integrityError
      else Except.ok (db ++ [row], row, true)

/-- Embedding of `ApplicantRepository.update_applicant`
(`repositories.py`, lines 84–115):
`ApplicantModel.objects.filter(applicant_id=applicant_id).update(**kwargs)`.
The workflow's only call site passes `verification_status`, so the update
is specialised to that column. A Django queryset `update` writes the given
columns on every matching row and returns the number of rows matched; it
raises nothing when no row matches. -/
def update_applicant (db : List ApplicantRow) (applicant_id : String)
    (verification_status : String) : List ApplicantRow × Nat :=
  (db.map (fun r =>
      if r.applicant_id == some applicant_id then
        { r with verification_status := some verification_status }
      else r),
   (db.filter (fun r => r.applicant_id == some applicant_id)).length)

end ApplicantRepository

/-! ## Workflow service (`domain/services.py`, `SumsubApplicant`) -/

/-- Errors surfacing from a workflow operation: a database failure from
the repository, or a provider-client failure. The service layer catches
nothing, so each is the underlying error unchanged. -/
inductive ServiceError where
  | db (e : DBError)
  | api (e : ClientError)
deriving Repr, DecidableEq

namespace SumsubApplicant

/-- Domain applicant built by `SumsubApplicant.create_applicant`
(`services.py`, lines 50–57) from the incoming DTO: the six personal
fields, all optional fields left at their dataclass defaults. -/
def applicant_of_dto (dto : ApplicantDTO) : Applicant :=
  { first_name := dto.first_name
    last_name := dto.last_name
    dob := dto.dob
    nationality := dto.nationality
    email := dto.email
    phone := dto.phone }

/-- Embedding of `SumsubApplicant.create_applicant`
(`services.py`, lines 37–64). Control flow, in source order:
build the domain applicant from the DTO; `self.applicant_db, created =
self.applicant_repo.save_applicant(self.applicant)`; call
`self.sumsub_api.create_applicant(...)` — `api_outcome` stands for the
provider's answer to that call; on success assign
`self.applicant_db.applicant_id = applicant_id` and persist it with
`self.applicant_db.save()`. Any exception from the repository or the API
client propagates, leaving the store as it was at that point. The result
pairs the final store with the outcome. -/
def create_applicant (db : List ApplicantRow) (dto : ApplicantDTO)
    (api_outcome : Except ClientError String) :
    List ApplicantRow × Except ServiceError ApplicantRow :=
  match ApplicantRepository.save_applicant db (applicant_of_dto dto) with
  | Except.error e => (db, Except.error (ServiceError.db e))
  | Except.ok (db1, row, _created) =>
      match api_outcome with
      | Except.error e => (db1, Except.error (ServiceError.api e))
      | Except.ok applicant_id =>
          let row2 := { row with applicant_id := some applicant_id }
          (modelSave db1 row2, Except.ok row2)

/-- Embedding of `SumsubApplicant.add_document`
(`services.py`, lines 66–82): it builds a `Document` from the four DTO
fields and immediately calls `self.sumsub_api.add_document(document)` —
without consulting the repository and without any check on
`applicant_id`. The first component is the list of documents pushed
outbound during the invocation (always exactly the one just built);
`api_outcome` stands for the provider's answer. -/
def add_document (dto : DocumentDTO)
    (api_outcome : Except ClientError (Option String)) :
    List Document × Except ServiceError Unit :=
  let document : Document :=
    ⟨dto.doc_type, dto.doc_subtype, dto.document_file, dto.applicant_id⟩
  ([document],
   match api_outcome with
   | Except.error e => Except.error (ServiceError.api e)
   | Except.ok _ => Except.ok ())

/-- Embedding of `SumsubApplicant.get_verification_status`
(`services.py`, lines 84–103): call
`self.sumsub_api.get_verification_status(applicant_id)` — `api_outcome`
stands for the provider's answer — then persist the fetched status with
`self.applicant_repo.update_applicant(applicant_id=applicant_id,
verification_status=status)` and return the status. -/
def get_verification_status (db : List ApplicantRow) (applicant_id : String)
    (api_outcome : Except ClientError String) :
    List ApplicantRow × Except ServiceError String :=
  match api_outcome with
  | Except.error e => (db, Except.error (ServiceError.api e))
  | Except.ok status =>
      ((ApplicantRepository.update_applicant db applicant_id status).1,
       Except.ok status)

end SumsubApplicant

/-! ## Helper lemmas and concrete fixtures -/

/-- Case analysis of a successful `save_applicant`: either `get_or_create`
found a row with the natural key (store unchanged, `created = false`), or
it inserted a fresh row carrying the class-level default uuid and empty
optional columns (`created = true`), which required the default uuid to be
absent from the store. -/
theorem save_applicant_ok_cases (db : List ApplicantRow) (a : Applicant)
    (db1 : List ApplicantRow) (row : ApplicantRow) (created : Bool)
    (h : ApplicantRepository.save_applicant db a = Except.ok (db1, row, created)) :
    (db.find? (fun r => natKeyMatches r a) = some row ∧ db1 = db ∧ created = false)
    ∨ (db.find? (fun r => natKeyMatches r a) = none
        ∧ row = ⟨ApplicantModelDefaultUuid, a.first_name, a.last_name, a.email,
                 a.dob, a.nationality, a.phone, none, none⟩
        ∧ db1 = db ++ [row] ∧ created = true
        ∧ db.any (fun r => r.uuid == ApplicantModelDefaultUuid) = false) := by
  unfold ApplicantRepository.save_applicant at h
  cases hfind : db.find? (fun r => natKeyMatches r a) with
  | some r =>
      rw [hfind] at h
      simp only [Except.ok.injEq, Prod.mk.injEq] at h
      obtain ⟨h1, h2, h3⟩ := h
      exact Or.inl ⟨by rw [h2], h1.symm, h3.symm⟩
  | none =>
      rw [hfind] at h
      by_cases hc : db.any (fun r => r.uuid == ApplicantModelDefaultUuid) = true
      · simp [hc] at h
      · simp only [Bool.not_eq_true] at hc
        simp only [hc, Bool.false_eq_true, if_false, Except.ok.injEq,
          Prod.mk.injEq] at h
        obtain ⟨h1, h2, h3⟩ := h
        exact Or.inr ⟨rfl, h2.symm, by rw [← h1, h2], h3.symm, hc⟩

/-- Queryset `update` on `verification_status` leaves every row's
`applicant_id` column as it was. -/
theorem update_preserves_applicant_id (db : List ApplicantRow)
    (aid vstatus : String) :
    ((ApplicantRepository.update_applicant db aid vstatus).1).map ApplicantRow.applicant_id
      = db.map ApplicantRow.applicant_id := by
  unfold ApplicantRepository.update_applicant
  rw [List.map_map]
  apply List.map_congr_left
  intro r _
  by_cases hc : r.applicant_id = some aid <;> simp [hc]

/-- Sample applicant-creation input, the scenario of §8 of the spec. -/
def adaDto : ApplicantDTO :=
  ⟨"Ada", "Lovelace", "1815-12-10", "GBR", "ada@example.com", "+441234567890"⟩

/-- Domain applicant built from `adaDto`. -/
def adaApplicant : Applicant := SumsubApplicant.applicant_of_dto adaDto

/-- Row as `save_applicant` freshly inserts it for `adaDto`. -/
def adaFreshRow : ApplicantRow :=
  ⟨ApplicantModelDefaultUuid, "Ada", "Lovelace", "ada@example.com",
   "1815-12-10", "GBR", "+441234567890", none, none⟩

/-- The same row after a successful provider creation returned id `abc`. -/
def adaLinkedRow : ApplicantRow := { adaFreshRow with applicant_id := some "abc" }

/-- Matching the natural-key filter against a freshly inserted row of `a`
forces the two applicants' natural keys to coincide. -/
theorem natKeyMatches_fresh_row (a b : Applicant)
    (h : natKeyMatches
        ⟨ApplicantModelDefaultUuid, a.first_name, a.last_name, a.email,
         a.dob, a.nationality, a.phone, none, none⟩ b = true) :
    naturalKey a = naturalKey b := by
  simp only [natKeyMatches, Bool.and_eq_true, beq_iff_eq] at h
  obtain ⟨⟨⟨⟨⟨h1, h2⟩, h3⟩, h4⟩, h5⟩, h6⟩ := h
  simp [naturalKey, h1, h2, h3, h4, h5, h6]

/-! ## The claims -/

/-- C1: for every HTTP method, path (including query string), body, secret
key and timestamp, the payload `_get_headers` signs is exactly the byte
concatenation of the decimal string of the unix timestamp, the uppercased
method, the request path (query string included) and the raw request body
(the empty byte string when there is none), with no separators; and the
emitted signature header is the HMAC-SHA-256 of that payload keyed by the
secret, hex-encoded in lower case. -/
theorem C1_request_signing (secret token : String) (now : Nat)
    (method path : String) (body : RequestBody) :
    (SumsubAPIAdapter.get_headers secret token now method path body).xAppAccessSig
        = hexEncode (hmacSha256 (utf8 secret)
            (specCanonicalPayload now method path body.toBytes))
    ∧ ((SumsubAPIAdapter.get_headers secret token now method path
          body).xAppAccessSig).toList.all isLowerHexChar = true :=
  ⟨rfl, hexEncode_lowerHex _⟩

/-- C2 is false on the code: for a document DTO whose applicant id is the
empty string — no provider id supplied or known — `add_document` still
attempts the outbound provider call, and when the provider accepts, the
operation succeeds. No `PreconditionError` is raised (no such check, nor
error class, exists in the source). -/
theorem C2_no_precondition_counterexample :
    (SumsubApplicant.add_document
        ⟨"PASSPORT", "FRONT_SIDE", ⟨[137, 80], "image/png"⟩, ""⟩
        (Except.ok none)).1.length = 1
    ∧ (SumsubApplicant.add_document
        ⟨"PASSPORT", "FRONT_SIDE", ⟨[137, 80], "image/png"⟩, ""⟩
        (Except.ok none)).2 = Except.ok () :=
  ⟨rfl, rfl⟩

/-- C2 (amended): `SumsubApplicant.add_document` performs no precondition
check at all: for every document DTO — including one whose applicant id is
empty or was never issued — exactly one outbound document upload built
from the DTO's four fields is attempted, and the operation's outcome is
the provider call's outcome unchanged. -/
theorem C2_amended_no_precondition_check (dto : DocumentDTO)
    (api : Except ClientError (Option String)) :
    (SumsubApplicant.add_document dto api).1
        = [⟨dto.doc_type, dto.doc_subtype, dto.document_file, dto.applicant_id⟩]
    ∧ (SumsubApplicant.add_document dto api).2
        = Except.mapError ServiceError.api (Except.map (fun _ => ()) api) := by
  refine ⟨rfl, ?_⟩
  cases api <;> rfl

/-- C3 names a code bug: the repository port's own docstring
(`application/ports.py`, `update_applicant`) documents `NotFoundError`
when no applicant with the given id exists, and the spec repeats it, but
the implementation (`repositories.py`, lines 84–115) runs
`filter(applicant_id=...).update(...)`, which matches zero rows, updates
nothing and returns the count `0` without raising; the workflow's status
refresh then persists through it and succeeds. Evaluated at the failing
input — a provider id that was never issued, on an empty store. -/
theorem C3_update_absent_returns_zero :
    ApplicantRepository.update_applicant [] "never-issued" "GREEN" = ([], 0)
    ∧ SumsubApplicant.get_verification_status [] "never-issued"
        (Except.ok "GREEN") = ([], Except.ok "GREEN") :=
  ⟨rfl, rfl⟩

/-- C4 is false as universally stated: an applicant-creation invocation
can resolve (get-or-create) to a record persisted by an earlier successful
creation, whose provider applicant id is already set. Here the local save
succeeds (it finds the existing record), the provider call fails, the
record remains — but its provider applicant id field is `some "abc"`, not
unset. -/
theorem C4_not_unset_counterexample :
    ApplicantRepository.save_applicant [adaLinkedRow] adaApplicant
        = Except.ok ([adaLinkedRow], adaLinkedRow, false)
    ∧ SumsubApplicant.create_applicant [adaLinkedRow] adaDto
        (Except.error (ClientError.httpError 500 []))
        = ([adaLinkedRow], Except.error (ServiceError.api (ClientError.httpError 500 [])))
    ∧ ¬ adaLinkedRow.applicant_id = none :=
  ⟨rfl, rfl, by decide⟩

/-- C4 (amended): when the local save succeeds and the provider creation
call then fails, the error propagates, the store stays exactly as the save
left it — the persisted record remains, neither rolled back nor deleted —
and the invocation does not touch the record's provider applicant id; in
particular, when the save newly created the record, that id is unset. -/
theorem C4_amended_no_rollback (db : List ApplicantRow) (dto : ApplicantDTO)
    (e : ClientError) (db1 : List ApplicantRow) (row : ApplicantRow)
    (created : Bool)
    (hsave : ApplicantRepository.save_applicant db
        (SumsubApplicant.applicant_of_dto dto) = Except.ok (db1, row, created)) :
    SumsubApplicant.create_applicant db dto (Except.error e)
        = (db1, Except.error (ServiceError.api e))
    ∧ row ∈ db1
    ∧ (created = true → row.applicant_id = none) := by
  refine ⟨?_, ?_, ?_⟩
  · unfold SumsubApplicant.create_applicant
    rw [hsave]
  · rcases save_applicant_ok_cases db (SumsubApplicant.applicant_of_dto dto)
        db1 row created hsave with ⟨hf, hdb, _⟩ | ⟨_, _, hdb, _, _⟩
    · exact hdb ▸ List.mem_of_find?_eq_some hf
    · exact hdb ▸ List.mem_append.mpr (Or.inr (List.mem_singleton.mpr rfl))
  · intro hc
    rcases save_applicant_ok_cases db (SumsubApplicant.applicant_of_dto dto)
        db1 row created hsave with ⟨_, _, hcr⟩ | ⟨_, hrow, _, _, _⟩
    · rw [hc] at hcr; cases hcr
    · rw [hrow]

/-- Witness for C4 (amended): creating Ada on an empty store while the
provider answers HTTP 500 leaves exactly the fresh local record, with no
provider id, and surfaces the provider error. -/
theorem C4_amended_no_rollback_witness :
    SumsubApplicant.create_applicant [] adaDto
        (Except.error (ClientError.httpError 500 []))
        = ([adaFreshRow], Except.error (ServiceError.api (ClientError.httpError 500 [])))
    ∧ adaFreshRow ∈ [adaFreshRow]
    ∧ (true = true → adaFreshRow.applicant_id = none) :=
  C4_amended_no_rollback [] adaDto (ClientError.httpError 500 [])
    [adaFreshRow] adaFreshRow true rfl

/-- C5 is false on the code: a record already holding provider id `abc`
is resolved again by a repeated creation with the same personal fields,
and when the provider call succeeds with a fresh id `xyz`,
`create_applicant` overwrites the stored provider id with it — the
identifier is not set at most once. -/
theorem C5_provider_id_replaced_counterexample :
    (SumsubApplicant.create_applicant [adaLinkedRow] adaDto
        (Except.ok "xyz")).1
        = [{ adaLinkedRow with applicant_id := some "xyz" }]
    ∧ adaLinkedRow.applicant_id = some "abc"
    ∧ (some "xyz" : Option String) ≠ some "abc" :=
  ⟨rfl, rfl, by decide⟩

/-- C5 (amended): the provider applicant id is written only by the
success path of applicant creation — a status refresh never changes any
row's provider id, and a failed creation adds at most a fresh row whose
provider id is unset — and a successful creation sets the resolved
record's provider id to exactly the id the provider just returned,
overwriting any previously stored value when a repeated creation resolves
to the same persisted record. -/
theorem C5_amended_set_only_by_creation (db : List ApplicantRow)
    (dto : ApplicantDTO) (aid pid : String)
    (api : Except ClientError String) (e : ClientError)
    (db1 : List ApplicantRow) (row : ApplicantRow) (created : Bool)
    (hsave : ApplicantRepository.save_applicant db
        (SumsubApplicant.applicant_of_dto dto) = Except.ok (db1, row, created)) :
    ((SumsubApplicant.get_verification_status db aid api).1).map
        ApplicantRow.applicant_id = db.map ApplicantRow.applicant_id
    ∧ (∀ r ∈ (SumsubApplicant.create_applicant db dto (Except.error e)).1,
        r ∈ db ∨ r.applicant_id = none)
    ∧ (SumsubApplicant.create_applicant db dto (Except.ok pid)).2
        = Except.ok { row with applicant_id := some pid } := by
  refine ⟨?_, ?_, ?_⟩
  · cases api with
    | error e2 => rfl
    | ok s => exact update_preserves_applicant_id db aid s
  · intro r hr
    have hdb1 : (SumsubApplicant.create_applicant db dto (Except.error e)).1 = db1 := by
      unfold SumsubApplicant.create_applicant
      rw [hsave]
    rw [hdb1] at hr
    rcases save_applicant_ok_cases db (SumsubApplicant.applicant_of_dto dto)
        db1 row created hsave with ⟨_, hdb, _⟩ | ⟨_, hrow, hdb, _, _⟩
    · exact Or.inl (hdb ▸ hr)
    · rw [hdb] at hr
      rcases List.mem_append.mp hr with hmem | hmem
      · exact Or.inl hmem
      · right
        rw [List.mem_singleton.mp hmem, hrow]
  · unfold SumsubApplicant.create_applicant
    rw [hsave]

/-- Witness for C5 (amended): instantiated on an empty store with Ada's
input, a provider id `xyz`, a status-refresh answer `GREEN` and an HTTP
500 failure. -/
theorem C5_amended_set_only_by_creation_witness :
    ((SumsubApplicant.get_verification_status [] "abc"
        (Except.ok "GREEN")).1).map ApplicantRow.applicant_id
        = ([] : List ApplicantRow).map ApplicantRow.applicant_id
    ∧ (∀ r ∈ (SumsubApplicant.create_applicant [] adaDto
        (Except.error (ClientError.httpError 500 []))).1,
        r ∈ ([] : List ApplicantRow) ∨ r.applicant_id = none)
    ∧ (SumsubApplicant.create_applicant [] adaDto (Except.ok "xyz")).2
        = Except.ok { adaFreshRow with applicant_id := some "xyz" } :=
  C5_amended_set_only_by_creation [] adaDto "abc" "xyz"
    (Except.ok "GREEN") (ClientError.httpError 500 [])
    [adaFreshRow] adaFreshRow true rfl

/-- C6 is false on the code: the uniform timeout constant is `40000`, and
the `requests` library interprets the `timeout=` argument in seconds, so
the ceiling on every outbound call is 40000 seconds — over eleven hours —
not tens of seconds (at most 99 seconds); and no `ExternalServiceError`
class exists in the source for a timeout to be mapped to. -/
theorem C6_timeout_counterexample :
    SumsubAPIAdapter.TIMEOUT = 40000 ∧ ¬ SumsubAPIAdapter.TIMEOUT ≤ 99 := by
  decide

/-- C6 (amended): every outbound provider call — applicant creation,
document upload and status fetch — is sent with the same fixed timeout
constant `TIMEOUT = 40000`, which the HTTP library interprets as 40000
seconds; a timeout therefore fails the operation with the HTTP library's
timeout exception (propagated unchanged) rather than hanging forever, but
the ceiling is hours, not tens of seconds, and the exception is not an
`ExternalServiceError`. -/
theorem C6_amended_uniform_timeout (base : String) (d : Document)
    (aid : String) :
    (SumsubAPIAdapter.create_applicant_request base).timeout
        = SumsubAPIAdapter.TIMEOUT
    ∧ (SumsubAPIAdapter.add_document_request base d).timeout
        = SumsubAPIAdapter.TIMEOUT
    ∧ (SumsubAPIAdapter.get_verification_status_request base aid).timeout
        = SumsubAPIAdapter.TIMEOUT
    ∧ SumsubAPIAdapter.TIMEOUT = 40000 :=
  ⟨rfl, rfl, rfl, rfl⟩

/-- C7 is false as stated: the failure check is
`response.raise_for_status()`, which raises only for statuses in
`[400, 600)`. A non-2xx response outside that range does not fail the
call: a 304 response whose JSON carries an `id` makes `create_applicant`
succeed. -/
theorem C7_non2xx_success_counterexample :
    ¬ (200 ≤ (304 : Nat) ∧ (304 : Nat) < 300)
    ∧ SumsubAPIAdapter.create_applicant_result ⟨304, [("id", "abc123")], []⟩
        = Except.ok "abc123" :=
  ⟨by decide, rfl⟩

/-- C7 (amended): each client operation raises the HTTP error — carrying
the response's status and body — exactly when the response status lies in
`[400, 600)`, not on every non-2xx; on such a failure the error
propagates unchanged through the workflow (the service layer catches
nothing), exactly one outbound exchange is attempted per invocation, and
`raise_for_status` passes a response if and only if its status is outside
`[400, 600)`. -/
theorem C7_amended_fail_iff_400_599 (r r2 : ProviderResponse)
    (db : List ApplicantRow) (dto : ApplicantDTO) (ddto : DocumentDTO)
    (aid : String) (e : ClientError)
    (hr : 400 ≤ r.status ∧ r.status < 600) :
    SumsubAPIAdapter.create_applicant_result r
        = Except.error (ClientError.httpError r.status r.json)
    ∧ SumsubAPIAdapter.add_document_result r
        = Except.error (ClientError.httpError r.status r.json)
    ∧ SumsubAPIAdapter.get_verification_status_result r
        = Except.error (ClientError.httpError r.status r.json)
    ∧ (SumsubApplicant.get_verification_status db aid (Except.error e)).2
        = Except.error (ServiceError.api e)
    ∧ (SumsubApplicant.add_document ddto (Except.error e)).2
        = Except.error (ServiceError.api e)
    ∧ (SumsubApplicant.add_document ddto (Except.error e)).1.length = 1
    ∧ (∀ db1 row c, ApplicantRepository.save_applicant db
          (SumsubApplicant.applicant_of_dto dto) = Except.ok (db1, row, c) →
        (SumsubApplicant.create_applicant db dto (Except.error e)).2
          = Except.error (ServiceError.api e))
    ∧ (SumsubAPIAdapter.raise_for_status r2 = Except.ok ()
        ↔ ¬ (400 ≤ r2.status ∧ r2.status < 600)) := by
  have hraise : SumsubAPIAdapter.raise_for_status r
      = Except.error (ClientError.httpError r.status r.json) := by
    unfold SumsubAPIAdapter.raise_for_status
    rw [if_pos hr]
  refine ⟨?_, ?_, ?_, rfl, rfl, rfl, ?_, ?_⟩
  · unfold SumsubAPIAdapter.create_applicant_result
    rw [hraise]
  · unfold SumsubAPIAdapter.add_document_result
    rw [hraise]
  · unfold SumsubAPIAdapter.get_verification_status_result
    rw [hraise]
  · intro db1 row c hsave
    unfold SumsubApplicant.create_applicant
    rw [hsave]
  · unfold SumsubAPIAdapter.raise_for_status
    by_cases h2 : 400 ≤ r2.status ∧ r2.status < 600
    · rw [if_pos h2]
      simp [h2]
    · rw [if_neg h2]
      simp [h2]

/-- Witness for C7 (amended): instantiated at a 404 response with a JSON
body, a 200 response, an empty store and Ada's input. -/
theorem C7_amended_fail_iff_400_599_witness :
    SumsubAPIAdapter.create_applicant_result
        ⟨404, [("description", "Not Found")], []⟩
        = Except.error (ClientError.httpError 404 [("description", "Not Found")])
    ∧ SumsubAPIAdapter.add_document_result
        ⟨404, [("description", "Not Found")], []⟩
        = Except.error (ClientError.httpError 404 [("description", "Not Found")])
    ∧ SumsubAPIAdapter.get_verification_status_result
        ⟨404, [("description", "Not Found")], []⟩
        = Except.error (ClientError.httpError 404 [("description", "Not Found")])
    ∧ (SumsubApplicant.get_verification_status [] "abc"
        (Except.error (ClientError.httpError 404 []))).2
        = Except.error (ServiceError.api (ClientError.httpError 404 []))
    ∧ (SumsubApplicant.add_document
        ⟨"PASSPORT", "BACK_SIDE", ⟨[1], "image/png"⟩, "abc"⟩
        (Except.error (ClientError.httpError 404 []))).2
        = Except.error (ServiceError.api (ClientError.httpError 404 []))
    ∧ (SumsubApplicant.add_document
        ⟨"PASSPORT", "BACK_SIDE", ⟨[1], "image/png"⟩, "abc"⟩
        (Except.error (ClientError.httpError 404 []))).1.length = 1
    ∧ (∀ db1 row c, ApplicantRepository.save_applicant []
          (SumsubApplicant.applicant_of_dto adaDto) = Except.ok (db1, row, c) →
        (SumsubApplicant.create_applicant [] adaDto
          (Except.error (ClientError.httpError 404 []))).2
          = Except.error (ServiceError.api (ClientError.httpError 404 [])))
    ∧ (SumsubAPIAdapter.raise_for_status ⟨200, [("id", "abc123")], []⟩
        = Except.ok ()
        ↔ ¬ (400 ≤ (200 : Nat) ∧ (200 : Nat) < 600)) :=
  C7_amended_fail_iff_400_599
    ⟨404, [("description", "Not Found")], []⟩ ⟨200, [("id", "abc123")], []⟩
    [] adaDto ⟨"PASSPORT", "BACK_SIDE", ⟨[1], "image/png"⟩, "abc"⟩
    "abc" (ClientError.httpError 404 []) (by decide)

/-- C8: `save_applicant` is get-or-create on the natural key. After one
successful save, saving again with identical values of the six natural-key
fields finds and returns the already-persisted record, leaves the store
unchanged and reports `created = false` — no second local record is
created. -/
theorem C8_save_get_or_create_idempotent (db : List ApplicantRow)
    (a b : Applicant) (db1 : List ApplicantRow) (row : ApplicantRow)
    (created : Bool)
    (hsave : ApplicantRepository.save_applicant db a = Except.ok (db1, row, created))
    (h1 : a.first_name = b.first_name) (h2 : a.last_name = b.last_name)
    (h3 : a.dob = b.dob) (h4 : a.nationality = b.nationality)
    (h5 : a.email = b.email) (h6 : a.phone = b.phone) :
    ApplicantRepository.save_applicant db1 b = Except.ok (db1, row, false) := by
  have hpred : (fun r => natKeyMatches r a) = (fun r => natKeyMatches r b) :=
    funext fun r => by simp [natKeyMatches, h1, h2, h3, h4, h5, h6]
  have hfound : db1.find? (fun r => natKeyMatches r b) = some row := by
    rcases save_applicant_ok_cases db a db1 row created hsave with
      ⟨hf, hdb, _⟩ | ⟨hf, hrow, hdb, _, _⟩
    · rw [hdb, ← hpred, hf]
    · have hmatch : natKeyMatches row a = true := by
        rw [hrow]
        simp [natKeyMatches]
      rw [hdb, List.find?_append, ← hpred, hf]
      rw [@List.find?_cons_of_pos _ (fun r => natKeyMatches r a) row [] hmatch]
      rfl
  unfold ApplicantRepository.save_applicant
  rw [hfound]

/-- Witness for C8: after saving Ada on an empty store, saving the same
applicant again returns the existing row, with the store unchanged and
`created = false`. -/
theorem C8_save_get_or_create_idempotent_witness :
    ApplicantRepository.save_applicant [adaFreshRow] adaApplicant
      = Except.ok ([adaFreshRow], adaFreshRow, false) :=
  C8_save_get_or_create_idempotent [] adaApplicant adaApplicant
    [adaFreshRow] adaFreshRow true rfl rfl rfl rfl rfl rfl rfl

/-- C9: the model declares `uuid = models.UUIDField(primary_key=True,
default=uuid.uuid4())`, a value computed once at class-definition time, so
every row `save_applicant` freshly inserts receives the same internal
identifier; consequently, saving an applicant with a different natural key
into a store already holding such a row attempts a forced insert with a
duplicate primary key and fails with `IntegrityError` instead of creating
a second record. -/
theorem C9_fixed_default_uuid (a b : Applicant) (db db1 : List ApplicantRow)
    (row : ApplicantRow)
    (hsave : ApplicantRepository.save_applicant db a = Except.ok (db1, row, true))
    (hne : naturalKey a ≠ naturalKey b)
    (hb : db.find? (fun r => natKeyMatches r b) = none) :
    row.uuid = ApplicantModelDefaultUuid
    ∧ ApplicantRepository.save_applicant db1 b
        = Except.error DBError.integrityError := by
  rcases save_applicant_ok_cases db a db1 row true hsave with
    ⟨_, _, hcr⟩ | ⟨_, hrow, hdb, _, _⟩
  · simp at hcr
  · constructor
    · rw [hrow]
    · have hmem : row ∈ db1 :=
        hdb ▸ List.mem_append.mpr (Or.inr (List.mem_singleton.mpr rfl))
      have hfb : db1.find? (fun r => natKeyMatches r b) = none := by
        have hno : ¬ natKeyMatches row b = true := fun hmatch =>
          hne (natKeyMatches_fresh_row a b (hrow ▸ hmatch))
        rw [hdb, List.find?_append, hb,
          @List.find?_cons_of_neg _ (fun r => natKeyMatches r b) row [] hno]
        rfl
      have hany : db1.any (fun r => r.uuid == ApplicantModelDefaultUuid) = true :=
        List.any_eq_true.mpr ⟨row, hmem, by rw [hrow]; simp⟩
      unfold ApplicantRepository.save_applicant
      rw [hfb, if_pos hany]

/-- Witness for C9: Ada's row occupies the single default uuid; saving Bob
(different natural key) on that store fails with `IntegrityError`. -/
theorem C9_fixed_default_uuid_witness :
    adaFreshRow.uuid = ApplicantModelDefaultUuid
    ∧ ApplicantRepository.save_applicant [adaFreshRow]
        (SumsubApplicant.applicant_of_dto
          ⟨"Bob", "Lovelace", "1815-12-10", "GBR", "bob@example.com",
           "+441234567899"⟩)
        = Except.error DBError.integrityError :=
  C9_fixed_default_uuid adaApplicant
    (SumsubApplicant.applicant_of_dto
      ⟨"Bob", "Lovelace", "1815-12-10", "GBR", "bob@example.com",
       "+441234567899"⟩)
    [] [adaFreshRow] adaFreshRow rfl (by decide) rfl

/-- C10: the provider creation payload hard-codes
`countryOfBirth = "NGN"`, `stateOfBirth = "Lagos"` and `gender = "M"`
(besides the constants `lang = "en"` and `type = "individual"`) for every
applicant, the document-upload metadata hard-codes `country = "NGA"` for
every document, and the payload depends only on first name, last name,
dob, nationality, email, phone and the external correlation id (the
applicant's internal uuid): two applicants agreeing on those seven produce
identical payloads. -/
theorem C10_hardcoded_payload_fields (a b : Applicant) (d : Document)
    (h1 : a.first_name = b.first_name) (h2 : a.last_name = b.last_name)
    (h3 : a.dob = b.dob) (h4 : a.nationality = b.nationality)
    (h5 : a.email = b.email) (h6 : a.phone = b.phone) (h7 : a.uuid = b.uuid) :
    (SumsubAPIAdapter.create_applicant_payload a).fixedInfo.countryOfBirth = "NGN"
    ∧ (SumsubAPIAdapter.create_applicant_payload a).fixedInfo.stateOfBirth = "Lagos"
    ∧ (SumsubAPIAdapter.create_applicant_payload a).fixedInfo.gender = "M"
    ∧ (SumsubAPIAdapter.create_applicant_payload a).lang = "en"
    ∧ (SumsubAPIAdapter.create_applicant_payload a).type = "individual"
    ∧ (SumsubAPIAdapter.add_document_metadata d).country = "NGA"
    ∧ SumsubAPIAdapter.create_applicant_payload a
        = SumsubAPIAdapter.create_applicant_payload b := by
  refine ⟨rfl, rfl, rfl, rfl, rfl, rfl, ?_⟩
  simp [SumsubAPIAdapter.create_applicant_payload, h1, h2, h3, h4, h5, h6, h7]

/-- Witness for C10: two applicants sharing the seven varying fields but
differing in provider id and verification status produce the same payload;
the constants are evaluated on Ada's data and a passport document. -/
theorem C10_hardcoded_payload_fields_witness :
    (SumsubAPIAdapter.create_applicant_payload
        { adaApplicant with applicant_id := some "abc", uuid := some 7,
                            verification_status := some "GREEN" }).fixedInfo.countryOfBirth = "NGN"
    ∧ (SumsubAPIAdapter.create_applicant_payload
        { adaApplicant with applicant_id := some "abc", uuid := some 7,
                            verification_status := some "GREEN" }).fixedInfo.stateOfBirth = "Lagos"
    ∧ (SumsubAPIAdapter.create_applicant_payload
        { adaApplicant with applicant_id := some "abc", uuid := some 7,
                            verification_status := some "GREEN" }).fixedInfo.gender = "M"
    ∧ (SumsubAPIAdapter.create_applicant_payload
        { adaApplicant with applicant_id := some "abc", uuid := some 7,
                            verification_status := some "GREEN" }).lang = "en"
    ∧ (SumsubAPIAdapter.create_applicant_payload
        { adaApplicant with applicant_id := some "abc", uuid := some 7,
                            verification_status := some "GREEN" }).type = "individual"
    ∧ (SumsubAPIAdapter.add_document_metadata
        ⟨"PASSPORT", "FRONT_SIDE", ⟨[1], "image/png"⟩, "abc"⟩).country = "NGA"
    ∧ SumsubAPIAdapter.create_applicant_payload
        { adaApplicant with applicant_id := some "abc", uuid := some 7,
                            verification_status := some "GREEN" }
        = SumsubAPIAdapter.create_applicant_payload
            { adaApplicant with uuid := some 7 } :=
  C10_hardcoded_payload_fields
    { adaApplicant with applicant_id := some "abc", uuid := some 7,
                        verification_status := some "GREEN" }
    { adaApplicant with uuid := some 7 }
    ⟨"PASSPORT", "FRONT_SIDE", ⟨[1], "image/png"⟩, "abc"⟩
    rfl rfl rfl rfl rfl rfl rfl
